import Mathlib

/-!
Verification development for the dialogue-bubble editor.

This file shallowly embeds the geometric and text-layout core of the
editor in Lean 4 and settles the specification claims against it.

Conventions of the embedding:
* JavaScript numbers are modelled as `ℚ` (every IEEE double is a
  rational; none of the verified claims depend on rounding).
* Host functions that the code calls but does not define
  (`Math.sin`, `Math.cos`, `Math.PI`, canvas `measureText`,
  SVG `getTotalLength`/`getPointAtLength`) are abstracted as explicit
  parameters (`MathHost`, a measurement function, `PathHost`); they
  return doubles, i.e. rationals, and the claims hold for every such
  host unless stated otherwise.
* SVG path strings are modelled as lists of path commands
  (`PathCmd`); the source builds exactly these commands by string
  concatenation, and no claim depends on the decimal rendering of the
  numbers inside the string.
* `TextFitResult.fits` is a `Bool`, as in the source.
-/

namespace BubbleEditor

/-- The seven bubble kinds of `types.ts` (`BubbleType`). -/
inductive BubbleType where
  | speechDown
  | speechUp
  | thought
  | shout
  | descriptive
  | whisper
  | textOnly
deriving DecidableEq, Repr

/-- The five fonts of `types.ts` (`FontName`). -/
inductive FontName where
  | comic
  | bangers
  | indie
  | marker
  | arial
deriving DecidableEq, Repr

/-- `SpeechTailPart` of `types.ts`: tail base centre, base width, tip,
and the remembered initial dimensions. -/
structure SpeechTailPart where
  id : String
  baseCX : ℚ
  baseCY : ℚ
  baseWidth : ℚ
  tipX : ℚ
  tipY : ℚ
  initialLength : ℚ
  initialBaseWidth : ℚ
deriving DecidableEq, Repr

/-- `ThoughtDotPart` of `types.ts`. -/
structure ThoughtDotPart where
  id : String
  offsetX : ℚ
  offsetY : ℚ
  size : ℚ
deriving DecidableEq, Repr

/-- `BubblePart` of `types.ts`: a tagged union of the two part kinds. -/
inductive BubblePart where
  | speechTail (t : SpeechTailPart)
  | thoughtDot (d : ThoughtDotPart)
deriving DecidableEq, Repr

/-- `Bubble` of `types.ts`. `shapeVariant` is the optional variant
integer (`shapeVariant?: number`). -/
structure Bubble where
  id : String
  type : BubbleType
  text : String
  x : ℚ
  y : ℚ
  width : ℚ
  height : ℚ
  fontFamily : FontName
  fontSize : ℚ
  textColor : String
  borderColor : String
  zIndex : ℚ
  parts : List BubblePart
  shapeVariant : Option ℚ
deriving DecidableEq, Repr

/-- `MIN_BUBBLE_WIDTH` of `types.ts`. -/
def MIN_BUBBLE_WIDTH : ℚ := 50

/-- `MIN_BUBBLE_HEIGHT` of `types.ts`. -/
def MIN_BUBBLE_HEIGHT : ℚ := 30

/-- Abstraction of the host math library: `Math.sin`, `Math.cos` and
`Math.PI` as seen by the code (double-valued, hence rational-valued).
All theorems below hold for every host. -/
structure MathHost where
  sin : ℚ → ℚ
  cos : ℚ → ℚ
  pi : ℚ

/-- One SVG path command, as emitted by `generateBubblePaths`.  The
source emits `M`, `L`, `A rx,ry 0 0 1 x,y` and `Q cx,cy x,y` commands
and a final `Z`; the string concatenation is modelled as a list of
these commands. -/
inductive PathCmd where
  | moveTo (x y : ℚ)
  | lineTo (x y : ℚ)
  | arc (rx ry xrot largeArc sweep x y : ℚ)
  | quad (cx cy x y : ℚ)
  | close
deriving DecidableEq, Repr

/-- An auxiliary circle of `BubblePaths.partsCircles`. -/
structure PartCircle where
  id : String
  cx : ℚ
  cy : ℚ
  r : ℚ
deriving DecidableEq, Repr

/-- `BubblePaths` of `bubbleUtils.ts`, with the `d`-string modelled as
a command list. -/
structure BubblePaths where
  bodyPath : List PathCmd
  partsCircles : List PartCircle
deriving DecidableEq, Repr

/-- The plain rounded-rectangle ("pill") outline emitted by
`generateBubblePaths` for speech bubbles without a visible tail and
for `Descriptive` bubbles:
`M r,0 L w-r,0 A r,r 0 0 1 w,r L w,h-r A r,r 0 0 1 w-r,h L r,h
 A r,r 0 0 1 0,h-r L 0,r A r,r 0 0 1 r,0 Z`. -/
def pillPath (w h r : ℚ) : List PathCmd :=
  [ .moveTo r 0,
    .lineTo (w - r) 0,
    .arc r r 0 0 1 w r,
    .lineTo w (h - r),
    .arc r r 0 0 1 (w - r) h,
    .lineTo r h,
    .arc r r 0 0 1 0 (h - r),
    .lineTo 0 r,
    .arc r r 0 0 1 r 0,
    .close ]

/-- `createTailPath` of `bubbleUtils.ts` (lines 32–35): the tail cut,
emitted between two points on the pill outline.  `midY` is computed
from the clamped base `y` and the tip `y`; both quadratic curves use
`midY` as the control-point `y` and interpolate the control-point `x`
a quarter of the way from the respective base point towards the tip. -/
def createTailPath (clampedBaseCY tipX tipY : ℚ) (startPt endPt : ℚ × ℚ) :
    List PathCmd :=
  let midY := clampedBaseCY + (tipY - clampedBaseCY) * 0.5
  [ .lineTo startPt.1 startPt.2,
    .quad (startPt.1 + (tipX - startPt.1) * 0.25) midY tipX tipY,
    .quad (endPt.1 + (tipX - endPt.1) * 0.25) midY endPt.1 endPt.2 ]

/-- Whether a bubble type takes the pill-with-tail branch of
`generateBubblePaths` (SpeechDown, SpeechUp, Whisper). -/
def isSpeechType : BubbleType → Bool
  | .speechDown => true
  | .speechUp => true
  | .whisper => true
  | _ => false

/-- `parts.find(p => p.type === 'speech-tail')` followed by the cast to
`SpeechTailPart`. -/
def findSpeechTail (parts : List BubblePart) : Option SpeechTailPart :=
  parts.findSome? fun p =>
    match p with
    | .speechTail t => some t
    | _ => none

/-- The body path of a speech bubble that carries a tail part
(`bubbleUtils.ts` lines 26–65).  The base point is clamped into the
rectangle and the branch is selected by exact comparison of the
clamped coordinates with the four edges. -/
def speechTailBodyPath (w h r : ℚ) (t : SpeechTailPart) : List PathCmd :=
  let halfBase := t.baseWidth / 2
  let clampedBaseCX := max 0 (min w t.baseCX)
  let clampedBaseCY := max 0 (min h t.baseCY)
  if clampedBaseCY = h then
    -- tail at the bottom edge
    let leftBaseX := max r (clampedBaseCX - halfBase)
    let rightBaseX := min (w - r) (clampedBaseCX + halfBase)
    [ .moveTo r 0,
      .lineTo (w - r) 0,
      .arc r r 0 0 1 w r,
      .lineTo w (h - r),
      .arc r r 0 0 1 (w - r) h,
      .lineTo rightBaseX h ] ++
    createTailPath clampedBaseCY t.tipX t.tipY (rightBaseX, h) (leftBaseX, h) ++
    [ .lineTo r h,
      .arc r r 0 0 1 0 (h - r),
      .lineTo 0 r,
      .arc r r 0 0 1 r 0,
      .close ]
  else if clampedBaseCY = 0 then
    -- tail at the top edge
    let leftBaseX := max r (clampedBaseCX - halfBase)
    let rightBaseX := min (w - r) (clampedBaseCX + halfBase)
    [ .moveTo r 0,
      .lineTo leftBaseX 0 ] ++
    createTailPath clampedBaseCY t.tipX t.tipY (leftBaseX, 0) (rightBaseX, 0) ++
    [ .lineTo (w - r) 0,
      .arc r r 0 0 1 w r,
      .lineTo w (h - r),
      .arc r r 0 0 1 (w - r) h,
      .lineTo r h,
      .arc r r 0 0 1 0 (h - r),
      .lineTo 0 r,
      .arc r r 0 0 1 r 0,
      .close ]
  else if clampedBaseCX = w then
    -- tail at the right edge
    let topBaseY := max r (clampedBaseCY - halfBase)
    let bottomBaseY := min (h - r) (clampedBaseCY + halfBase)
    [ .moveTo r 0,
      .lineTo (w - r) 0,
      .arc r r 0 0 1 w r,
      .lineTo w topBaseY ] ++
    createTailPath clampedBaseCY t.tipX t.tipY (w, topBaseY) (w, bottomBaseY) ++
    [ .lineTo w (h - r),
      .arc r r 0 0 1 (w - r) h,
      .lineTo r h,
      .arc r r 0 0 1 0 (h - r),
      .lineTo 0 r,
      .arc r r 0 0 1 r 0,
      .close ]
  else if clampedBaseCX = 0 then
    -- tail at the left edge
    let topBaseY := max r (clampedBaseCY - halfBase)
    let bottomBaseY := min (h - r) (clampedBaseCY + halfBase)
    [ .moveTo r 0,
      .lineTo (w - r) 0,
      .arc r r 0 0 1 w r,
      .lineTo w (h - r),
      .arc r r 0 0 1 (w - r) h,
      .lineTo r h,
      .arc r r 0 0 1 0 (h - r),
      .lineTo 0 bottomBaseY ] ++
    createTailPath clampedBaseCY t.tipX t.tipY (0, bottomBaseY) (0, topBaseY) ++
    [ .lineTo 0 r,
      .arc r r 0 0 1 r 0,
      .close ]
  else
    -- base strictly inside the rectangle: no visible tail
    pillPath w h r

/-- The seed of the inline PRNG of `generateBubblePaths` (line 73):
the sum of the character codes of the bubble id plus
`shapeVariant || 0`. -/
def bubbleSeed (id : String) (shapeVariant : Option ℚ) : ℚ :=
  (id.data.map fun c => (c.toNat : ℚ)).sum + shapeVariant.getD 0

/-- One output of the sine-based PRNG (lines 75–78) at a given state:
`x = sin(state) * 10000; return x - floor(x)`. -/
def rngVal (M : MathHost) (state : ℚ) : ℚ :=
  let x := M.sin state * 10000
  x - ⌊x⌋

/-- The lobe count of a `Thought` silhouette (line 92):
`Math.floor(random() * 6) + 7`, consuming the PRNG value at the seed
state. -/
def thoughtLobes (M : MathHost) (seed : ℚ) : ℕ :=
  (⌊rngVal M seed * 6⌋).toNat + 7

/-- The lobe angle `(i / lobes) * Math.PI * 2 - Math.PI / 2`
(line 96). -/
def thoughtAngle (M : MathHost) (lobes : ℕ) (i : ℕ) : ℚ :=
  ((i : ℚ) / (lobes : ℚ)) * M.pi * 2 - M.pi / 2

/-- The mid angle `(angle + nextAngle) / 2` (line 108). -/
def thoughtMidAngle (M : MathHost) (lobes : ℕ) (i : ℕ) : ℚ :=
  (thoughtAngle M lobes i + thoughtAngle M lobes (i + 1)) / 2

/-- The bulge factor of lobe `i` (line 111): `1.3 + random() * 0.3`,
consuming the PRNG value at state `st`. -/
def thoughtBulge (M : MathHost) (st : ℚ) : ℚ :=
  1.3 + rngVal M st * 0.3

/-- The quadratic command of one `Thought` lobe iteration
(lines 99–116): endpoint on the ellipse at the next angle, control
point pushed outward by the bulge factor at the mid angle. -/
def thoughtQuadCmd (M : MathHost) (cx cy rx ry : ℚ) (lobes : ℕ) (i : ℕ)
    (st : ℚ) : PathCmd :=
  .quad (cx + rx * thoughtBulge M st * M.cos (thoughtMidAngle M lobes i))
        (cy + ry * thoughtBulge M st * M.sin (thoughtMidAngle M lobes i))
        (cx + rx * M.cos (thoughtAngle M lobes (i + 1)))
        (cy + ry * M.sin (thoughtAngle M lobes (i + 1)))

/-- The `for` loop of the `Thought` branch, iterations `i`,
`i+1`, … for `count` further iterations, with PRNG state `st`;
each iteration appends one quadratic command and advances the PRNG
state by one. -/
def thoughtQuads (M : MathHost) (cx cy rx ry : ℚ) (lobes : ℕ) :
    ℕ → ℕ → ℚ → List PathCmd
  | 0, _, _ => []
  | count + 1, i, st =>
      thoughtQuadCmd M cx cy rx ry lobes i st ::
        thoughtQuads M cx cy rx ry lobes count (i + 1) (st + 1)

/-- The `for` loop of the `Shout` branch (lines 143–164), iterations
`i`, `i+1`, … for `count` further iterations with PRNG state `st`:
alternating outer/inner radii perturbed by the seeded PRNG, `M` on the
first iteration and `L` afterwards. -/
def shoutCmds (M : MathHost) (cx cy outerRx outerRy innerRx innerRy : ℚ) :
    ℕ → ℕ → ℚ → List PathCmd
  | 0, _, _ => []
  | count + 1, i, st =>
      let angle := ((i : ℚ) * M.pi) / 14 - M.pi / 2
      let isOuter := i % 2 = 0
      let randomFactor : ℚ :=
        if isOuter then 0.6 + rngVal M st * 0.8 else 0.9 + rngVal M st * 0.2
      let currRx := (if isOuter then outerRx else innerRx) * randomFactor
      let currRy := (if isOuter then outerRy else innerRy) * randomFactor
      let px := cx + currRx * M.cos angle
      let py := cy + currRy * M.sin angle
      (if i = 0 then PathCmd.moveTo px py else PathCmd.lineTo px py) ::
        shoutCmds M cx cy outerRx outerRy innerRx innerRy count (i + 1) (st + 1)

/-- `generateBubblePaths` of `bubbleUtils.ts`, written over exactly the
fields the source destructures or reads from the bubble
(`width`, `height`, `type`, `parts`, `id`, `shapeVariant`). -/
def generateBubblePathsCore (M : MathHost) (id : String) (ty : BubbleType)
    (w h : ℚ) (parts : List BubblePart) (shapeVariant : Option ℚ) :
    BubblePaths :=
  let r : ℚ :=
    if isSpeechType ty then min w h / 2
    else if ty = .descriptive then 5
    else 20
  if isSpeechType ty then
    match findSpeechTail parts with
    | some t => { bodyPath := speechTailBodyPath w h r t, partsCircles := [] }
    | none => { bodyPath := pillPath w h r, partsCircles := [] }
  else
    let seed := bubbleSeed id shapeVariant
    match ty with
    | .descriptive => { bodyPath := pillPath w h r, partsCircles := [] }
    | .thought =>
        let cx := w / 2
        let cy := h / 2
        let rx := w * 0.30
        let ry := h * 0.30
        let lobes := thoughtLobes M seed
        let bodyQuads := thoughtQuads M cx cy rx ry lobes lobes 0 (seed + 1)
        let bodyStart : List PathCmd :=
          if lobes = 0 then []
          else [ .moveTo (cx + rx * M.cos (thoughtAngle M lobes 0))
                         (cy + ry * M.sin (thoughtAngle M lobes 0)) ]
        { bodyPath := bodyStart ++ bodyQuads ++ [.close],
          partsCircles := parts.filterMap fun p =>
            match p with
            | .thoughtDot d =>
                some { id := d.id, cx := d.offsetX, cy := d.offsetY,
                       r := d.size / 2 }
            | _ => none }
    | .shout =>
        let cx := w / 2
        let cy := h / 2
        let outerRx := w / 2
        let outerRy := h / 2
        let innerRx := w / 3.5
        let innerRy := h / 3.5
        { bodyPath := shoutCmds M cx cy outerRx outerRy innerRx innerRy 28 0 seed
            ++ [.close],
          partsCircles := [] }
    | _ => { bodyPath := [], partsCircles := [] }

/-- `generateBubblePaths(bubble)`: the wrapper applying the core
function to the fields the source reads. -/
def generateBubblePaths (M : MathHost) (b : Bubble) : BubblePaths :=
  generateBubblePathsCore M b.id b.type b.width b.height b.parts b.shapeVariant

/-- Whether a command list contains a quadratic-curve command; the
generated outline contains a `Q` exactly when a tail cut was drawn. -/
def containsQuad (cmds : List PathCmd) : Bool :=
  cmds.any fun c => match c with | .quad _ _ _ _ => true | _ => false

/-! ## textAutoFit -/

/-- `SAFE_TEXT_ZONES` of `textAutoFit.ts`: per-type width/height
factors of the usable text zone. -/
def SAFE_TEXT_ZONES : BubbleType → ℚ × ℚ
  | .shout => (0.50, 0.775)
  | .thought => (0.50, 0.825)
  | .speechDown => (0.83, 0.915)
  | .speechUp => (0.83, 0.915)
  | .whisper => (0.80, 0.90)
  | .descriptive => (0.90, 0.925)
  | .textOnly => (0.95, 0.95)

/-- `getLineHeightOffset` of `textAutoFit.ts` (lines 571–582): the
extra inter-line gap for a font size, `size * (1 - min(0.8, reduction))`
with a piecewise-linear reduction. -/
def getLineHeightOffset (size : ℚ) : ℚ :=
  let reduction : ℚ :=
    if size < 10 then 0.2 + (size - 5) * 0.02
    else 0.3 + (size - 10) * 0.01
  size * (1 - min 0.8 reduction)

/-- The safe text bounds of `getTextBounds` (`textAutoFit.ts`
lines 598–607). -/
structure TextBounds where
  width : ℚ
  height : ℚ
  x : ℚ
  y : ℚ
deriving DecidableEq, Repr

/-- `getTextBounds` of `textAutoFit.ts`: the centred safe zone obtained
from the per-type factors.  (The `||` fallback of the source is dead:
the record lookup is total.) -/
def getTextBounds (b : Bubble) : TextBounds :=
  let safeZone := SAFE_TEXT_ZONES b.type
  let width := b.width * safeZone.1
  let height := b.height * safeZone.2
  { width := width, height := height,
    x := (b.width - width) / 2, y := (b.height - height) / 2 }

/-- Fuel-indexed worker for `stripTags`: removes every
`<`…first-following-`>` group, as the regex `/<[^>]*>/g` does; a `<`
with no later `>` is kept together with the rest of the string.  The
fuel is the length of the list, so it never runs out. -/
def stripTagsGo : ℕ → List Char → List Char
  | 0, cs => cs
  | _ + 1, [] => []
  | n + 1, c :: rest =>
      if c = '<' then
        match rest.dropWhile (fun d => !(d = '>')) with
        | [] => c :: rest
        | _ :: after => stripTagsGo n after
      else c :: stripTagsGo n rest

/-- `text.replace(/<[^>]*>/g, '')` of `measureText`. -/
def stripTags (s : String) : String :=
  ⟨stripTagsGo s.data.length s.data⟩

/-- JavaScript whitespace test for the `\s` class, restricted to the
usual ASCII whitespace characters. -/
def isWsChar (c : Char) : Bool :=
  c = ' ' ∨ c = '\t' ∨ c = '\n' ∨ c = '\r'

/-- Fuel-indexed worker for `splitWs`: splits at maximal whitespace
runs, keeping the (possibly empty) piece before each run and the
(possibly empty) final piece — the semantics of
`String.prototype.split(/\s+/)`. -/
def splitWsGo : ℕ → List Char → List Char → List String
  | 0, _, acc => [⟨acc.reverse⟩]
  | _ + 1, [], acc => [⟨acc.reverse⟩]
  | n + 1, c :: rest, acc =>
      if isWsChar c then
        (⟨acc.reverse⟩ : String) :: splitWsGo n (rest.dropWhile isWsChar) []
      else splitWsGo n rest (c :: acc)

/-- `plainText.split(/\s+/)` of `measureText`. -/
def splitWs (s : String) : List String :=
  splitWsGo s.data.length s.data []

/-- Abstraction of the canvas text-measurement oracle: given the font
size, the font family and a string, the advance width reported by
`ctx.measureText` after `ctx.font = fontSize + "px " + fontFamily`. -/
def MeasureFn : Type := ℚ → String → String → ℚ

/-- `Math.max(...list)` over the measured line widths: the maximum of
the list with `-∞` (`⊥`) as the value of the empty spread. -/
def jsMaxList (l : List ℚ) : WithBot ℚ :=
  l.foldr (fun a m => max (a : WithBot ℚ) m) ⊥

/-- The result record of `measureText`.  `width` is `Math.max` over
the line widths and is `-∞` (`⊥`) when no line was produced. -/
structure MeasureResult where
  width : WithBot ℚ
  height : ℚ
  lines : ℕ
deriving DecidableEq, Repr

/-- One step of the word-wrapping loop of `measureText`
(lines 636–647): try to extend the current line by the next word,
flush the line when the test line overflows and a line is open. -/
def measureWrapStep (measure : MeasureFn) (fontSize maxWidth : ℚ)
    (fontFamily : String) (st : List String × String) (word : String) :
    List String × String :=
  let testLine := if st.2 ≠ "" then st.2 ++ " " ++ word else word
  if measure fontSize fontFamily testLine > maxWidth ∧ st.2 ≠ "" then
    (st.1 ++ [st.2], word)
  else
    (st.1, testLine)

/-- `measureText` of `textAutoFit.ts` (lines 613–661).  `mctx` is
`some measure` when `canvas.getContext('2d')` succeeds and `none` for
the null-context fallback of lines 623–625. -/
def measureText (mctx : Option MeasureFn) (text fontFamily : String)
    (fontSize maxWidth : ℚ) : MeasureResult :=
  match mctx with
  | none => { width := (maxWidth : WithBot ℚ), height := fontSize * 1.4, lines := 1 }
  | some measure =>
      let plainText := stripTags text
      let words := splitWs plainText
      let wrapped :=
        words.foldl (measureWrapStep measure fontSize maxWidth fontFamily) ([], "")
      let lines := if wrapped.2 ≠ "" then wrapped.1 ++ [wrapped.2] else wrapped.1
      let lineHeight := fontSize + getLineHeightOffset fontSize
      { width := jsMaxList (lines.map (measure fontSize fontFamily)),
        height := (lines.length : ℚ) * lineHeight,
        lines := lines.length }

/-- `TextFitResult` of `textAutoFit.ts`. -/
structure TextFitResult where
  fontSize : ℚ
  textWidth : WithBot ℚ
  textHeight : ℚ
  fits : Bool
  scaleFactor : ℚ
deriving DecidableEq, Repr

/-- The fall-through result of `calculateOptimalFontSize`
(lines 701–711): measure at the minimum size and report `fits` from
the height check alone. -/
def fitFallback (mctx : Option MeasureFn) (text fontFamily : String)
    (tbWidth tbHeight minFontSize targetFontSize : ℚ) : TextFitResult :=
  { fontSize := minFontSize,
    textWidth := (measureText mctx text fontFamily minFontSize tbWidth).width,
    textHeight := (measureText mctx text fontFamily minFontSize tbWidth).height,
    fits := decide
      ((measureText mctx text fontFamily minFontSize tbWidth).height ≤ tbHeight),
    scaleFactor := minFontSize / targetFontSize }

/-- The `while` loop of `calculateOptimalFontSize` (lines 682–699),
with the remaining iteration budget (`maxIterations - iterations`) as
fuel: measure at the current size, return it on a fit, otherwise
decrement by one clamped at the minimum. -/
def fitLoop (mctx : Option MeasureFn) (text fontFamily : String)
    (tbWidth tbHeight minFontSize targetFontSize : ℚ) :
    ℕ → ℚ → TextFitResult
  | 0, _ => fitFallback mctx text fontFamily tbWidth tbHeight minFontSize targetFontSize
  | fuel + 1, fontSize =>
      if minFontSize ≤ fontSize then
        if (measureText mctx text fontFamily fontSize tbWidth).height ≤ tbHeight ∧
            (measureText mctx text fontFamily fontSize tbWidth).width
              ≤ (tbWidth : WithBot ℚ) then
          { fontSize := fontSize,
            textWidth := (measureText mctx text fontFamily fontSize tbWidth).width,
            textHeight := (measureText mctx text fontFamily fontSize tbWidth).height,
            fits := true,
            scaleFactor := fontSize / targetFontSize }
        else
          fitLoop mctx text fontFamily tbWidth tbHeight minFontSize targetFontSize
            fuel (max minFontSize (fontSize - 1))
      else
        fitFallback mctx text fontFamily tbWidth tbHeight minFontSize targetFontSize

/-- `calculateOptimalFontSize` of `textAutoFit.ts` (lines 667–711):
start at `min(bubble.fontSize, maxFontSize)` and run the bounded
decrementing search against the closed-form safe zone. -/
def calculateOptimalFontSize (mctx : Option MeasureFn) (text : String)
    (b : Bubble) (fontFamily : String) (minFontSize maxFontSize : ℚ) :
    TextFitResult :=
  let textBounds := getTextBounds b
  fitLoop mctx text fontFamily textBounds.width textBounds.height minFontSize
    b.fontSize 20 (min b.fontSize maxFontSize)

/-- Whether the text measured at size `s` fits the closed-form safe
zone of `b` — the success condition of the search loop. -/
def fitsAt (mctx : Option MeasureFn) (text fontFamily : String) (b : Bubble)
    (s : ℚ) : Prop :=
  let tb := getTextBounds b
  let dims := measureText mctx text fontFamily s tb.width
  dims.height ≤ tb.height ∧ dims.width ≤ (tb.width : WithBot ℚ)

instance (mctx : Option MeasureFn) (text fontFamily : String) (b : Bubble)
    (s : ℚ) : Decidable (fitsAt mctx text fontFamily b s) := by
  unfold fitsAt; infer_instance

/-- `autoFitBubbleText` of `textAutoFit.ts` (lines 727–745). -/
def autoFitBubbleText (mctx : Option MeasureFn) (b : Bubble)
    (fontFamily : String) : Bubble :=
  if b.type = .textOnly ∨ b.text = "" ∨ b.text = "Votre texte ici" then b
  else
    let result := calculateOptimalFontSize mctx b.text b fontFamily 8 40
    if result.fontSize = b.fontSize then b
    else { b with fontSize := result.fontSize }

/-! ## textBoundsCalculator -/

/-- Abstraction of the browser's view of an SVG path element built
from a generated body path: `getTotalLength()` and
`getPointAtLength(d)` (`textBoundsCalculator.ts` lines 44–51, 91). -/
structure PathHost where
  pathLength : ℚ
  pointAt : ℚ → ℚ × ℚ

/-- The scanning state of `findIntersectionsAtY`: the `wasAbove` flag,
the previous sampled point, and the intersections collected so far. -/
structure ScanState where
  wasAbove : Bool
  lastPoint : Option (ℚ × ℚ)
  acc : List ℚ
deriving Repr

/-- One iteration of the sampling loop of `findIntersectionsAtY`
(lines 89–110): sample the path at the next arc-length position and
record a linear-interpolated crossing when the `y < targetY` flag
flips. -/
def scanStep (P : PathHost) (targetY : ℚ) (st : ScanState) (i : ℕ) : ScanState :=
  let distance := ((i : ℚ) / 100) * P.pathLength
  let point := P.pointAt distance
  match st.lastPoint with
  | some lastPoint =>
      let isAbove := decide (point.2 < targetY)
      if st.wasAbove ≠ isAbove then
        let t := (targetY - lastPoint.2) / (point.2 - lastPoint.2)
        { wasAbove := isAbove, lastPoint := some point,
          acc := st.acc ++ [lastPoint.1 + t * (point.1 - lastPoint.1)] }
      else
        { wasAbove := isAbove, lastPoint := some point, acc := st.acc }
  | none =>
      { wasAbove := decide (point.2 < targetY), lastPoint := some point,
        acc := st.acc }

/-- `findIntersectionsAtY` of `textBoundsCalculator.ts`
(lines 82–113): sample 101 points along the path and collect the
crossings of the horizontal line at `targetY`. -/
def findIntersectionsAtY (P : PathHost) (targetY : ℚ) : List ℚ :=
  ((List.range 101).foldl (scanStep P targetY)
    { wasAbove := false, lastPoint := none, acc := [] }).acc

/-- `samplePathAtYPositions` of `textBoundsCalculator.ts`
(lines 40–77): at each of `numSamples` evenly spaced rows, report 70%
of the span between the extreme crossings, or `totalHeight * 0.5`
when fewer than two crossings were found. -/
def samplePathAtYPositions (P : PathHost) (totalHeight : ℚ)
    (numSamples : ℕ) : List ℚ :=
  (List.range numSamples).map fun (i : ℕ) =>
    let y := ((i : ℚ) / ((numSamples : ℚ) - 1)) * totalHeight
    let intersections := findIntersectionsAtY P y
    if 2 ≤ intersections.length then
      let minX := intersections.foldr min (intersections.headD 0)
      let maxX := intersections.foldr max (intersections.headD 0)
      (maxX - minX) * 0.70
    else
      totalHeight * 0.5

/-- `calculateTextBounds` of `textBoundsCalculator.ts` (lines 8–35):
a constant 92% width for rectangular types, otherwise the per-row
function over 20 sampled rows of the generated outline.  `P` is the
browser's path view of `generateBubblePaths(bubble).bodyPath`. -/
def calculateTextBounds (P : PathHost) (b : Bubble) : ℚ → ℚ :=
  if b.type = .descriptive ∨ b.type = .textOnly then
    fun _ => b.width * 0.92
  else
    let samples := samplePathAtYPositions P b.height 20
    fun y =>
      let relativeY := y / b.height
      let sampleIndex : ℤ := ⌊relativeY * ((samples.length : ℚ) - 1)⌋
      if sampleIndex < 0 ∨ (samples.length : ℤ) ≤ sampleIndex then
        b.width * 0.5
      else
        samples.getD sampleIndex.toNat 0

/-! ## The resize branch of the interaction engine (`BubbleItem`) -/

/-- The eight resize handles (`ActiveHandle` minus `null`). -/
inductive ActiveHandle where
  | tl | tc | tr | ml | mr | bl | bc | br
deriving DecidableEq, Repr

/-- `activeHandle?.includes('l')`. -/
def handleHasL : Option ActiveHandle → Bool
  | some .tl | some .ml | some .bl => true
  | _ => false

/-- `activeHandle?.includes('r')`. -/
def handleHasR : Option ActiveHandle → Bool
  | some .tr | some .mr | some .br => true
  | _ => false

/-- `activeHandle?.includes('t')`. -/
def handleHasT : Option ActiveHandle → Bool
  | some .tl | some .tc | some .tr => true
  | _ => false

/-- `activeHandle?.includes('b')`. -/
def handleHasB : Option ActiveHandle → Bool
  | some .bl | some .bc | some .br => true
  | _ => false

/-- The gesture snapshot captured at pointer-down for a resize
(`BubbleItem`): start-of-gesture geometry and the copied parts. -/
structure ResizeSnapshot where
  activeHandle : Option ActiveHandle
  initialBubbleX : ℚ
  initialBubbleY : ℚ
  initialBubbleWidth : ℚ
  initialBubbleHeight : ℚ
  initialParts : List BubblePart
deriving Repr

/-- The per-part update of the resize branch (`BubbleItem`
lines 608–654): tails stay pinned to the edge they were anchored to
(within an epsilon of `0.0001`) and otherwise scale and clamp, with
the tip kept as a scaled offset from the base; dots scale and clamp,
with the size floored at 2.  (Rational division by zero is `0` here,
where the host would produce an infinity; no claim depends on a
zero-sized original bubble.) -/
def resizePart (origW origH newWidth newHeight scaleX scaleY : ℚ)
    (p : BubblePart) : BubblePart :=
  match p with
  | .speechTail partOrig =>
      let eps : ℚ := 0.0001
      let anchoredBottom := |partOrig.baseCY - origH| < eps
      let anchoredTop := |partOrig.baseCY| < eps
      let anchoredRight := |partOrig.baseCX - origW| < eps
      let anchoredLeft := |partOrig.baseCX| < eps
      let baseCX :=
        if anchoredRight then newWidth
        else if anchoredLeft then 0
        else max 0 (min newWidth (partOrig.baseCX * scaleX))
      let baseCY :=
        if anchoredBottom then newHeight
        else if anchoredTop then 0
        else max 0 (min newHeight (partOrig.baseCY * scaleY))
      let dx := partOrig.tipX - partOrig.baseCX
      let dy := partOrig.tipY - partOrig.baseCY
      .speechTail { partOrig with
        baseCX := baseCX, baseCY := baseCY,
        tipX := baseCX + dx * scaleX, tipY := baseCY + dy * scaleY,
        baseWidth := max 1 (partOrig.baseWidth * scaleX),
        initialBaseWidth := max 1 (partOrig.initialBaseWidth * scaleX) }
  | .thoughtDot partOrig =>
      .thoughtDot { partOrig with
        offsetX := max 0 (min newWidth (partOrig.offsetX / origW * newWidth)),
        offsetY := max 0 (min newHeight (partOrig.offsetY / origH * newHeight)),
        size := max 2 (partOrig.size * ((scaleX + scaleY) / 2)) }

/-- The `resize` case of the pointer-move handler (`BubbleItem`
lines 579–660): new width/height from the active handle's edge flags,
clamped at the minimums; `x`/`y` follow a moving left/top edge; parts
re-derived from the snapshot's original parts. -/
def resizeBubble (b : Bubble) (inter : ResizeSnapshot) (deltaX deltaY : ℚ) :
    Bubble :=
  let dw := if handleHasL inter.activeHandle then -deltaX
            else if handleHasR inter.activeHandle then deltaX else 0
  let dh := if handleHasT inter.activeHandle then -deltaY
            else if handleHasB inter.activeHandle then deltaY else 0
  let newWidth := max MIN_BUBBLE_WIDTH (inter.initialBubbleWidth + dw)
  let newHeight := max MIN_BUBBLE_HEIGHT (inter.initialBubbleHeight + dh)
  let newX := if handleHasL inter.activeHandle then inter.initialBubbleX + deltaX
              else inter.initialBubbleX
  let newY := if handleHasT inter.activeHandle then inter.initialBubbleY + deltaY
              else inter.initialBubbleY
  let scaleX := newWidth / inter.initialBubbleWidth
  let scaleY := newHeight / inter.initialBubbleHeight
  { b with
    width := newWidth, height := newHeight, x := newX, y := newY,
    parts := inter.initialParts.map
      (resizePart inter.initialBubbleWidth inter.initialBubbleHeight
        newWidth newHeight scaleX scaleY) }

/-! ## Concrete hosts and inputs used by witnesses and counterexamples -/

/-- A concrete math host (the claims below hold for every host, so the
witnesses may use any fixed one). -/
def trivialHost : MathHost := { sin := fun _ => 0, cos := fun _ => 0, pi := 0 }

/-- A concrete `Thought` bubble. -/
def bubbleThought : Bubble :=
  { id := "bubble-1", type := .thought, text := "Salut", x := 0, y := 0,
    width := 120, height := 80, fontFamily := .comic, fontSize := 12,
    textColor := "#000000", borderColor := "#000000", zIndex := 10,
    parts := [], shapeVariant := some 1 }

/-- The same bubble with different text, position, font size and
colours — all fields that `generateBubblePaths` ignores. -/
def bubbleThoughtRestyled : Bubble :=
  { bubbleThought with
    text := "Un autre texte", x := 55, y := 33,
    fontSize := 30, textColor := "#ff0000", borderColor := "#00ff00",
    zIndex := 42 }

/-! ## C1 -/

/-- C1: shape synthesis is deterministic.  `generateBubblePaths` reads
only `id`, `shapeVariant`, `type`, `width`, `height` and `parts` of the
bubble, so any two calls agreeing on those fields — in particular two
calls with the very same bubble — produce the same `bodyPath` and the
same list of auxiliary circles.  The PRNG is the seeded sine-based
generator of the source, a pure function of the host math library and
the seed, never a host random source. -/
theorem generateBubblePaths_deterministic (M : MathHost) (b1 b2 : Bubble)
    (hid : b1.id = b2.id) (hvar : b1.shapeVariant = b2.shapeVariant)
    (hty : b1.type = b2.type) (hw : b1.width = b2.width)
    (hh : b1.height = b2.height) (hparts : b1.parts = b2.parts) :
    generateBubblePaths M b1 = generateBubblePaths M b2 := by
  unfold generateBubblePaths
  rw [hid, hvar, hty, hw, hh, hparts]

/-- Witness for C1: two concrete bubbles differing only in fields the
shape generator ignores produce identical paths. -/
theorem generateBubblePaths_deterministic_witness :
    bubbleThought.text ≠ bubbleThoughtRestyled.text ∧
    generateBubblePaths trivialHost bubbleThought =
      generateBubblePaths trivialHost bubbleThoughtRestyled :=
  ⟨by decide,
   generateBubblePaths_deterministic trivialHost bubbleThought
     bubbleThoughtRestyled rfl rfl rfl rfl rfl rfl⟩

/-! ## C7 -/

/-- C7: every resize operation clamps the new width at
`MIN_BUBBLE_WIDTH` (50) and the new height at `MIN_BUBBLE_HEIGHT`
(30), whatever the handle, the snapshot and the pointer delta. -/
theorem resizeBubble_min_dimensions (b : Bubble) (inter : ResizeSnapshot)
    (deltaX deltaY : ℚ) :
    MIN_BUBBLE_WIDTH ≤ (resizeBubble b inter deltaX deltaY).width ∧
    MIN_BUBBLE_HEIGHT ≤ (resizeBubble b inter deltaX deltaY).height := by
  exact ⟨le_max_left _ _, le_max_left _ _⟩

/-! ## C9 -/

/-- C9: on the 5–40 px range the line-gap function
`getLineHeightOffset` is monotonically non-decreasing, and the gap it
returns is never less than 20% of the nominal font size (the
reduction of the nominal size is capped at 80% by the `min(0.8, ·)`
clamp). -/
theorem getLineHeightOffset_monotone_bounded (s t : ℚ)
    (h5 : 5 ≤ s) (hst : s ≤ t) (h40 : t ≤ 40) :
    getLineHeightOffset s ≤ getLineHeightOffset t ∧
    0.2 * s ≤ getLineHeightOffset s := by
  simp only [getLineHeightOffset]
  constructor
  · by_cases hs : s < 10
    · by_cases ht : t < 10
      · rw [if_pos hs, if_pos ht, min_eq_right (by nlinarith),
          min_eq_right (by nlinarith)]
        nlinarith [mul_nonneg (sub_nonneg.2 hst)
          (show (0:ℚ) ≤ 0.9 - 0.02 * (t + s) by nlinarith)]
      · rw [if_pos hs, if_neg ht, min_eq_right (by nlinarith),
          min_eq_right (by nlinarith)]
        have ht10 : (10:ℚ) ≤ t := not_lt.1 ht
        nlinarith [mul_nonneg (by linarith : (0:ℚ) ≤ t - 10)
            (by linarith : (0:ℚ) ≤ 70 - t),
          mul_nonneg (by linarith : (0:ℚ) ≤ 10 - s)
            (by linarith : (0:ℚ) ≤ 35 - s)]
    · have ht : ¬ t < 10 := fun hlt => hs (lt_of_le_of_lt hst hlt)
      rw [if_neg hs, if_neg ht, min_eq_right (by push_neg at hs; nlinarith),
        min_eq_right (by push_neg at ht; nlinarith)]
      nlinarith [mul_nonneg (sub_nonneg.2 hst)
        (show (0:ℚ) ≤ 0.8 - 0.01 * (t + s) by nlinarith)]
  · by_cases hs : s < 10
    · rw [if_pos hs, min_eq_right (by nlinarith)]
      nlinarith
    · rw [if_neg hs, min_eq_right (by push_neg at hs; nlinarith)]
      push_neg at hs
      nlinarith

/-- Witness for C9 at the concrete sizes 6 and 35. -/
theorem getLineHeightOffset_monotone_bounded_witness :
    (5:ℚ) ≤ 6 ∧ (6:ℚ) ≤ 35 ∧ (35:ℚ) ≤ 40 ∧
    (getLineHeightOffset 6 ≤ getLineHeightOffset 35 ∧
      0.2 * 6 ≤ getLineHeightOffset 6) :=
  ⟨by norm_num, by norm_num, by norm_num,
   getLineHeightOffset_monotone_bounded 6 35 (by norm_num) (by norm_num)
     (by norm_num)⟩

/-! ## C10 -/

/-- C10: `autoFitBubbleText` returns the input bubble with at most the
`fontSize` field replaced; in particular every other field (id, type,
text, position, size, font family, colours, z-index, parts, shape
variant) is unchanged, and when the bubble is `TextOnly`, its text is
empty, or its text is the placeholder `'Votre texte ici'`, the bubble
is returned entirely unchanged (the new font size is then the old
one). -/
theorem autoFitBubbleText_frame (mctx : Option MeasureFn) (b : Bubble)
    (fontFamily : String) :
    autoFitBubbleText mctx b fontFamily =
      { b with fontSize :=
          if b.type = .textOnly ∨ b.text = "" ∨ b.text = "Votre texte ici"
          then b.fontSize
          else (calculateOptimalFontSize mctx b.text b fontFamily 8 40).fontSize } := by
  unfold autoFitBubbleText
  by_cases hc : b.type = .textOnly ∨ b.text = "" ∨ b.text = "Votre texte ici"
  · simp only [if_pos hc]
  · simp only [if_neg hc]
    by_cases hfs :
        (calculateOptimalFontSize mctx b.text b fontFamily 8 40).fontSize
          = b.fontSize
    · rw [if_pos hfs, hfs]
    · rw [if_neg hfs]

/-! ## C5 -/

/-- Clamping into `[0, a]` lands on the upper bound exactly when the
input is at least `a`. -/
lemma clamp_eq_top {a x : ℚ} (ha : 0 < a) : max 0 (min a x) = a ↔ a ≤ x := by
  rcases le_total a x with h | h
  · rw [min_eq_left h, max_eq_right ha.le]
    exact ⟨fun _ => h, fun _ => rfl⟩
  · rcases le_total x 0 with h0 | h0
    · rw [min_eq_right (h0.trans ha.le), max_eq_left h0]
      exact ⟨fun h00 => absurd h00 ha.ne, fun hax => absurd (hax.trans h0) (not_le.2 ha)⟩
    · rw [min_eq_right h, max_eq_right h0]
      exact ⟨fun he => he ▸ le_refl a, fun hax => le_antisymm h hax⟩

/-- Clamping into `[0, a]` lands on the lower bound exactly when the
input is at most `0`. -/
lemma clamp_eq_bot {a x : ℚ} (ha : 0 < a) : max 0 (min a x) = 0 ↔ x ≤ 0 := by
  rcases le_total x 0 with h0 | h0
  · rw [min_eq_right (h0.trans ha.le), max_eq_left h0]
    exact ⟨fun _ => h0, fun _ => rfl⟩
  · rw [max_eq_right (le_min ha.le h0)]
    constructor
    · intro hm
      rcases le_total a x with hax | hax
      · rw [min_eq_left hax] at hm
        exact absurd hm ha.ne'
      · rw [min_eq_right hax] at hm
        exact hm.le
    · intro hx0
      have : x = 0 := le_antisymm hx0 h0
      rw [this, min_eq_right ha.le]

/-- The body path of a bubble in the speech family carrying a tail
part is `speechTailBodyPath`. -/
lemma generateBubblePaths_speech_body (M : MathHost) (b : Bubble)
    (t : SpeechTailPart) (hty : isSpeechType b.type = true)
    (hfind : findSpeechTail b.parts = some t) :
    (generateBubblePaths M b).bodyPath =
      speechTailBodyPath b.width b.height (min b.width b.height / 2) t := by
  unfold generateBubblePaths generateBubblePathsCore
  rw [hty, hfind]
  simp

/-- C5 (amended): for a SpeechDown, SpeechUp or Whisper bubble
carrying a `SpeechTailPart`, the generated outline contains a tail cut
if and only if the tail's base point, clamped into the rectangle, lies
exactly on one of the four edges — that is, iff `baseCY ≥ height`,
`baseCY ≤ 0`, `baseCX ≥ width` or `baseCX ≤ 0`; the comparison is
exact, not up to an epsilon.  For every base point strictly in the
interior the outline is the plain rounded-rectangle pill. -/
theorem tailCut_iff_base_on_edge (M : MathHost) (b : Bubble)
    (t : SpeechTailPart) (hty : isSpeechType b.type = true)
    (hfind : findSpeechTail b.parts = some t)
    (hw : 0 < b.width) (hh : 0 < b.height) :
    (containsQuad (generateBubblePaths M b).bodyPath = true ↔
      (b.height ≤ t.baseCY ∨ t.baseCY ≤ 0 ∨ b.width ≤ t.baseCX ∨ t.baseCX ≤ 0)) ∧
    (0 < t.baseCX → t.baseCX < b.width → 0 < t.baseCY → t.baseCY < b.height →
      (generateBubblePaths M b).bodyPath =
        pillPath b.width b.height (min b.width b.height / 2)) := by
  rw [generateBubblePaths_speech_body M b t hty hfind]
  have htop := clamp_eq_top (x := t.baseCY) hh
  have hbot := clamp_eq_bot (x := t.baseCY) hh
  have hrgt := clamp_eq_top (x := t.baseCX) hw
  have hlft := clamp_eq_bot (x := t.baseCX) hw
  simp only [speechTailBodyPath]
  split_ifs with h1 h2 h3 h4
  · exact ⟨⟨fun _ => Or.inl (htop.mp h1), fun _ => rfl⟩,
      fun _ _ _ hy2 => absurd (htop.mp h1) (not_le.2 hy2)⟩
  · exact ⟨⟨fun _ => Or.inr (Or.inl (hbot.mp h2)), fun _ => rfl⟩,
      fun _ _ hy1 _ => absurd (hbot.mp h2) (not_le.2 hy1)⟩
  · exact ⟨⟨fun _ => Or.inr (Or.inr (Or.inl (hrgt.mp h3))), fun _ => rfl⟩,
      fun _ hx2 _ _ => absurd (hrgt.mp h3) (not_le.2 hx2)⟩
  · exact ⟨⟨fun _ => Or.inr (Or.inr (Or.inr (hlft.mp h4))), fun _ => rfl⟩,
      fun hx1 _ _ _ => absurd (hlft.mp h4) (not_le.2 hx1)⟩
  · refine ⟨⟨fun habs => absurd (show (false : Bool) = true from habs) (by decide),
      fun hd => ?_⟩, fun _ _ _ _ => rfl⟩
    rcases hd with hd | hd | hd | hd
    · exact absurd (htop.mpr hd) h1
    · exact absurd (hbot.mpr hd) h2
    · exact absurd (hrgt.mpr hd) h3
    · exact absurd (hlft.mpr hd) h4

/-- A tail whose base point is within `0.0001` of the bottom edge but
not exactly on it. -/
def tailNearEdge : SpeechTailPart :=
  { id := "part-1", baseCX := 75, baseCY := 89.99995, baseWidth := 20,
    tipX := 75, tipY := 120, initialLength := 30, initialBaseWidth := 20 }

/-- A SpeechDown bubble carrying `tailNearEdge`. -/
def bubbleNearEdge : Bubble :=
  { id := "bubble-2", type := .speechDown, text := "Votre texte ici",
    x := 0, y := 0, width := 150, height := 90, fontFamily := .comic,
    fontSize := 12, textColor := "#000000", borderColor := "#000000",
    zIndex := 10, parts := [.speechTail tailNearEdge], shapeVariant := none }

/-- The outline of `bubbleNearEdge` is the plain pill: every branch
test of `speechTailBodyPath` fails for its base point. -/
lemma bubbleNearEdge_plain :
    (generateBubblePaths trivialHost bubbleNearEdge).bodyPath =
      pillPath 150 90 (min 150 90 / 2) := by
  rw [generateBubblePaths_speech_body trivialHost bubbleNearEdge tailNearEdge
    rfl rfl]
  show speechTailBodyPath 150 90 (min 150 90 / 2) tailNearEdge = _
  have hcy : max 0 (min (90:ℚ) tailNearEdge.baseCY) = 89.99995 := by
    show max 0 (min (90:ℚ) 89.99995) = 89.99995
    rw [min_eq_right (by norm_num), max_eq_right (by norm_num)]
  have hcx : max 0 (min (150:ℚ) tailNearEdge.baseCX) = 75 := by
    show max 0 (min (150:ℚ) 75) = 75
    rw [min_eq_right (by norm_num), max_eq_right (by norm_num)]
  simp only [speechTailBodyPath, hcy, hcx]
  rw [if_neg (by norm_num), if_neg (by norm_num), if_neg (by norm_num),
    if_neg (by norm_num)]

/-- Counterexample to C5 as stated: a tail base within an epsilon
(`0.0001`, the epsilon this code base uses elsewhere) of the bottom
edge, yet the generated outline contains no tail cut — the source
compares the clamped base coordinates with the edges exactly, so the
"within an epsilon" reading of the claim is false. -/
theorem tailCut_epsilon_counterexample :
    |tailNearEdge.baseCY - bubbleNearEdge.height| < 0.0001 ∧
    0 < tailNearEdge.baseCY ∧ tailNearEdge.baseCY < bubbleNearEdge.height ∧
    containsQuad (generateBubblePaths trivialHost bubbleNearEdge).bodyPath
      = false := by
  refine ⟨?_, ?_, ?_, ?_⟩
  · show |(89.99995 : ℚ) - 90| < 0.0001
    rw [show (89.99995 : ℚ) - 90 = -(1/20000) by norm_num, abs_neg,
      abs_of_nonneg (by norm_num)]
    norm_num
  · show (0:ℚ) < 89.99995
    norm_num
  · show (89.99995 : ℚ) < 90
    norm_num
  · rw [bubbleNearEdge_plain]
    rfl

/-- A tail based exactly on the bottom edge. -/
def tailBottom : SpeechTailPart :=
  { id := "part-2", baseCX := 75, baseCY := 90, baseWidth := 20,
    tipX := 75, tipY := 120, initialLength := 30, initialBaseWidth := 20 }

/-- A SpeechDown bubble carrying `tailBottom`. -/
def bubbleTailBottom : Bubble :=
  { bubbleNearEdge with id := "bubble-5", parts := [.speechTail tailBottom] }

/-- Witness for C5 (amended): the concrete bubble whose tail base is
exactly on the bottom edge gets a tail cut in its outline. -/
theorem tailCut_iff_base_on_edge_witness :
    containsQuad (generateBubblePaths trivialHost bubbleTailBottom).bodyPath
      = true :=
  (tailCut_iff_base_on_edge trivialHost bubbleTailBottom tailBottom rfl rfl
    (show (0:ℚ) < 150 by norm_num) (show (0:ℚ) < 90 by norm_num)).1.mpr
    (Or.inl (show (90:ℚ) ≤ 90 by norm_num))

/-! ## C6 -/

/-- The quadratic commands of a path, in order. -/
def pathQuads (cmds : List PathCmd) : List PathCmd :=
  cmds.filter fun c => match c with | .quad _ _ _ _ => true | _ => false

/-- C6 (amended): for every drawn tail, the tail cut consists of two
quadratic curves — from the edge point bracketing the base on one
side, to the tip, and back to the edge point on the other side.  Each
curve's control point has `x` a quarter of the way from its base-edge
point's `x` towards the tip's `x`, and `y` at the *midpoint* of the
clamped base `y` and the tip's `y` (`midY`), for all four edges alike
(the source's `createTailPath` always interpolates `x` by 25% and `y`
by 50%, regardless of the edge's orientation). -/
theorem tailCut_quads (M : MathHost) (b : Bubble) (t : SpeechTailPart)
    (w h r cbx cby halfBase midY : ℚ)
    (hty : isSpeechType b.type = true)
    (hfind : findSpeechTail b.parts = some t)
    (hw : w = b.width) (hh : h = b.height) (hr : r = min w h / 2)
    (hcbx : cbx = max 0 (min w t.baseCX))
    (hcby : cby = max 0 (min h t.baseCY))
    (hhb : halfBase = t.baseWidth / 2)
    (hmid : midY = cby + (t.tipY - cby) * 0.5) :
    (cby = h →
      pathQuads (generateBubblePaths M b).bodyPath =
        [ PathCmd.quad
            (min (w - r) (cbx + halfBase)
              + (t.tipX - min (w - r) (cbx + halfBase)) * 0.25)
            midY t.tipX t.tipY,
          PathCmd.quad
            (max r (cbx - halfBase)
              + (t.tipX - max r (cbx - halfBase)) * 0.25)
            midY (max r (cbx - halfBase)) h ]) ∧
    (cby ≠ h → cby = 0 →
      pathQuads (generateBubblePaths M b).bodyPath =
        [ PathCmd.quad
            (max r (cbx - halfBase)
              + (t.tipX - max r (cbx - halfBase)) * 0.25)
            midY t.tipX t.tipY,
          PathCmd.quad
            (min (w - r) (cbx + halfBase)
              + (t.tipX - min (w - r) (cbx + halfBase)) * 0.25)
            midY (min (w - r) (cbx + halfBase)) 0 ]) ∧
    (cby ≠ h → cby ≠ 0 → cbx = w →
      pathQuads (generateBubblePaths M b).bodyPath =
        [ PathCmd.quad (w + (t.tipX - w) * 0.25) midY t.tipX t.tipY,
          PathCmd.quad (w + (t.tipX - w) * 0.25) midY w
            (min (h - r) (cby + halfBase)) ]) ∧
    (cby ≠ h → cby ≠ 0 → cbx ≠ w → cbx = 0 →
      pathQuads (generateBubblePaths M b).bodyPath =
        [ PathCmd.quad (0 + (t.tipX - 0) * 0.25) midY t.tipX t.tipY,
          PathCmd.quad (0 + (t.tipX - 0) * 0.25) midY 0
            (max r (cby - halfBase)) ]) := by
  subst hw hh hr hcbx hcby hhb hmid
  rw [generateBubblePaths_speech_body M b t hty hfind]
  simp only [speechTailBodyPath]
  refine ⟨fun h1 => ?_, fun h1 h2 => ?_, fun h1 h2 h3 => ?_,
    fun h1 h2 h3 h4 => ?_⟩
  · rw [if_pos h1]
    simp [pathQuads, createTailPath, List.filter_append]
  · rw [if_neg h1, if_pos h2]
    simp [pathQuads, createTailPath, List.filter_append]
  · rw [if_neg h1, if_neg h2, if_pos h3]
    simp [pathQuads, createTailPath, List.filter_append]
  · rw [if_neg h1, if_neg h2, if_neg h3, if_pos h4]
    simp [pathQuads, createTailPath, List.filter_append]

/-- Counterexample to C6 as stated: for the concrete bottom-edge tail
of `bubbleTailBottom` (tip at `(75, 120)`, bottom edge at `y = 90`),
both control points have `y = 105`, the midpoint of the base edge's
`y` and the tip's `y` — not `90`, the base edge's coordinate, as the
claim requires of the cross-axis coordinate. -/
theorem tailCut_control_counterexample :
    pathQuads (generateBubblePaths trivialHost bubbleTailBottom).bodyPath =
      [ PathCmd.quad 82.5 105 75 120, PathCmd.quad 67.5 105 65 90 ] ∧
    (105 : ℚ) ≠ 90 ∧ bubbleTailBottom.height = 90 := by
  refine ⟨?_, by norm_num, rfl⟩
  rw [generateBubblePaths_speech_body trivialHost bubbleTailBottom tailBottom
    rfl rfl]
  show pathQuads (speechTailBodyPath 150 90 (min 150 90 / 2) tailBottom) = _
  rw [min_eq_right (show (90:ℚ) ≤ 150 by norm_num)]
  have hcy : max 0 (min (90:ℚ) tailBottom.baseCY) = 90 := by
    show max 0 (min (90:ℚ) 90) = 90
    rw [min_self, max_eq_right (by norm_num)]
  simp only [speechTailBodyPath, hcy]
  rw [if_pos trivial]
  norm_num [tailBottom, pathQuads, createTailPath, List.filter_append,
    min_def, max_def]

/-- A tail based exactly on the right edge. -/
def tailRight : SpeechTailPart :=
  { id := "part-3", baseCX := 150, baseCY := 45, baseWidth := 20,
    tipX := 190, tipY := 55, initialLength := 40, initialBaseWidth := 20 }

/-- A SpeechDown bubble carrying `tailRight`. -/
def bubbleTailRight : Bubble :=
  { bubbleNearEdge with id := "bubble-6", parts := [.speechTail tailRight] }

/-- Witness for C6 (amended), on the right-edge branch: the tail cut of
`bubbleTailRight` is the expected pair of quadratic curves. -/
theorem tailCut_quads_witness :
    pathQuads (generateBubblePaths trivialHost bubbleTailRight).bodyPath =
      [ PathCmd.quad 160 50 190 55, PathCmd.quad 160 50 150 45 ] := by
  have happ := (tailCut_quads trivialHost bubbleTailRight tailRight
    150 90 45 150 45 10 50 rfl rfl rfl rfl
    (by rw [min_eq_right (by norm_num)]; norm_num)
    (by show (150:ℚ) = max 0 (min (150:ℚ) 150)
        rw [min_self, max_eq_right (by norm_num)])
    (by show (45:ℚ) = max 0 (min (90:ℚ) 45)
        rw [min_eq_right (by norm_num), max_eq_right (by norm_num)])
    (by show (10:ℚ) = 20 / 2; norm_num)
    (by show (50:ℚ) = 45 + (55 - 45) * 0.5; norm_num)).2.2.1
    (by norm_num) (by norm_num) rfl
  rw [happ]
  norm_num [tailRight, min_def]

/-! ## C3 -/

/-- If no size between the minimum and the start value fits, the
search loop falls through to `fitFallback`, whatever the remaining
fuel. -/
lemma fitLoop_all_unfit (mctx : Option MeasureFn) (text fontFamily : String)
    (tbW tbH minFS targetFS start : ℚ)
    (hnofit : ∀ s : ℚ, minFS ≤ s → s ≤ start →
      ¬ ((measureText mctx text fontFamily s tbW).height ≤ tbH ∧
         (measureText mctx text fontFamily s tbW).width ≤ (tbW : WithBot ℚ))) :
    ∀ (fuel : ℕ) (fs : ℚ), fs ≤ start →
      fitLoop mctx text fontFamily tbW tbH minFS targetFS fuel fs =
        fitFallback mctx text fontFamily tbW tbH minFS targetFS := by
  intro fuel
  induction fuel with
  | zero => intro fs _; rfl
  | succ n ih =>
      intro fs hfs
      rw [fitLoop]
      by_cases hmin : minFS ≤ fs
      · rw [if_pos hmin, if_neg (hnofit fs hmin hfs)]
        exact ih _ (max_le (hmin.trans hfs) (by linarith))
      · rw [if_neg hmin]

/-- C3 (amended): when no font size in the searched range fits, the
search returns `fontSize = min` — but `fits` is the result of the
*height-only* check at the minimum size (`fits: dimensions.height <=
textBounds.height` in the fall-through return), not constantly
`false`; the function is total, so it never throws. -/
theorem calculateOptimalFontSize_exhausted (mctx : Option MeasureFn)
    (text : String) (b : Bubble) (fontFamily : String) (minFS maxFS : ℚ)
    (hnofit : ∀ s : ℚ, minFS ≤ s → s ≤ min b.fontSize maxFS →
      ¬ fitsAt mctx text fontFamily b s) :
    (calculateOptimalFontSize mctx text b fontFamily minFS maxFS).fontSize
      = minFS ∧
    (calculateOptimalFontSize mctx text b fontFamily minFS maxFS).fits =
      decide
        ((measureText mctx text fontFamily minFS (getTextBounds b).width).height
          ≤ (getTextBounds b).height) := by
  have h := fitLoop_all_unfit mctx text fontFamily (getTextBounds b).width
    (getTextBounds b).height minFS b.fontSize (min b.fontSize maxFS)
    (fun s h1 h2 => hnofit s h1 h2) 20 (min b.fontSize maxFS) le_rfl
  constructor
  · show (fitLoop mctx text fontFamily (getTextBounds b).width
      (getTextBounds b).height minFS b.fontSize 20
      (min b.fontSize maxFS)).fontSize = minFS
    rw [h]
    rfl
  · show (fitLoop mctx text fontFamily (getTextBounds b).width
      (getTextBounds b).height minFS b.fontSize 20
      (min b.fontSize maxFS)).fits = _
    rw [h]
    rfl

/-- A measurement oracle reporting a constant advance width of 1000
pixels for every string at every size. -/
def constMeasure : MeasureFn := fun _ _ _ => 1000

/-- The context option wrapping `constMeasure`. -/
def mctxConst : Option MeasureFn := some constMeasure

/-- A 100×100 `Descriptive` bubble with font size 12. -/
def bubbleSquare : Bubble :=
  { id := "bubble-7", type := .descriptive, text := "hello", x := 0, y := 0,
    width := 100, height := 100, fontFamily := .arial, fontSize := 12,
    textColor := "#000000", borderColor := "#000000", zIndex := 10,
    parts := [], shapeVariant := none }

/-- The closed-form safe zone of `bubbleSquare`:
`0.90 × 100 = 90` wide, `0.925 × 100 = 92.5` high. -/
lemma getTextBounds_bubbleSquare :
    getTextBounds bubbleSquare =
      { width := 90, height := 92.5, x := 5, y := 3.75 } := by
  norm_num [getTextBounds, bubbleSquare, SAFE_TEXT_ZONES]

/-- `Math.max` of a one-element spread. -/
lemma jsMaxList_single (a : ℚ) : jsMaxList [a] = (a : WithBot ℚ) := by
  simp only [jsMaxList, List.foldr]
  exact max_eq_left bot_le

/-- Measuring `"hello"` under `constMeasure`: a single unwrapped line
of width 1000. -/
lemma measureText_constMeasure (s : ℚ) :
    measureText mctxConst "hello" "Arial" s 90 =
      { width := ((1000:ℚ) : WithBot ℚ),
        height := s + getLineHeightOffset s, lines := 1 } := by
  have hwords : splitWs (stripTags "hello") = ["hello"] := rfl
  have hif : (if ("hello" : String) = "" then ([] : List String) else ["hello"])
      = ["hello"] := rfl
  norm_num [measureText, mctxConst, constMeasure, measureWrapStep, hwords,
    hif, jsMaxList_single]

/-- Under `constMeasure` no font size ever fits the 90-pixel-wide safe
zone: the measured width is 1000. -/
lemma constMeasure_never_fits (s : ℚ) :
    ¬ ((measureText mctxConst "hello" "Arial" s 90).height ≤ 92.5 ∧
       (measureText mctxConst "hello" "Arial" s 90).width
         ≤ ((90:ℚ) : WithBot ℚ)) := by
  rw [measureText_constMeasure]
  rintro ⟨-, hw⟩
  rw [WithBot.coe_le_coe] at hw
  norm_num at hw

/-- The fit condition at `bubbleSquare`, with its safe zone evaluated. -/
lemma fitsAt_bubbleSquare (s : ℚ) :
    fitsAt mctxConst "hello" "Arial" bubbleSquare s ↔
      ((measureText mctxConst "hello" "Arial" s 90).height ≤ 92.5 ∧
       (measureText mctxConst "hello" "Arial" s 90).width
         ≤ ((90:ℚ) : WithBot ℚ)) := by
  unfold fitsAt
  rw [getTextBounds_bubbleSquare]

/-- Counterexample to C3 as stated: for `bubbleSquare` under
`constMeasure` no size in `[8, min(12, 40)]` fits (the measured width
1000 always exceeds the 90-pixel safe zone), yet the search returns
`fits = true` — the fall-through return computes `fits` from the
height check alone, and the height at size 8 does fit. -/
theorem calculateOptimalFontSize_fits_counterexample :
    (∀ s : ℚ, 8 ≤ s → s ≤ min bubbleSquare.fontSize 40 →
      ¬ fitsAt mctxConst "hello" "Arial" bubbleSquare s) ∧
    (calculateOptimalFontSize mctxConst "hello" bubbleSquare "Arial" 8 40).fits
      = true := by
  refine ⟨fun s _ _ hfit =>
    constMeasure_never_fits s ((fitsAt_bubbleSquare s).mp hfit), ?_⟩
  have hloop := fitLoop_all_unfit mctxConst "hello" "Arial"
    (getTextBounds bubbleSquare).width (getTextBounds bubbleSquare).height 8
    bubbleSquare.fontSize (min bubbleSquare.fontSize 40)
    (fun s h1 h2 hfit =>
      constMeasure_never_fits s ((fitsAt_bubbleSquare s).mp hfit))
    20 (min bubbleSquare.fontSize 40) le_rfl
  show (fitLoop mctxConst "hello" "Arial" (getTextBounds bubbleSquare).width
    (getTextBounds bubbleSquare).height 8 bubbleSquare.fontSize 20
    (min bubbleSquare.fontSize 40)).fits = true
  rw [hloop]
  show decide
    ((measureText mctxConst "hello" "Arial" 8 (getTextBounds bubbleSquare).width).height
      ≤ (getTextBounds bubbleSquare).height) = true
  rw [getTextBounds_bubbleSquare]
  show decide
    ((measureText mctxConst "hello" "Arial" 8 90).height ≤ (92.5 : ℚ)) = true
  rw [measureText_constMeasure]
  rw [decide_eq_true_eq]
  norm_num [getLineHeightOffset, min_def]

/-- Witness for C3 (amended), at the same concrete no-fit input. -/
theorem calculateOptimalFontSize_exhausted_witness :
    (∀ s : ℚ, 8 ≤ s → s ≤ min bubbleSquare.fontSize 40 →
      ¬ fitsAt mctxConst "hello" "Arial" bubbleSquare s) ∧
    (calculateOptimalFontSize mctxConst "hello" bubbleSquare "Arial" 8 40).fontSize
      = 8 ∧
    (calculateOptimalFontSize mctxConst "hello" bubbleSquare "Arial" 8 40).fits =
      decide
        ((measureText mctxConst "hello" "Arial" 8 (getTextBounds bubbleSquare).width).height
          ≤ (getTextBounds bubbleSquare).height) :=
  ⟨fun s _ _ hfit => constMeasure_never_fits s ((fitsAt_bubbleSquare s).mp hfit),
   calculateOptimalFontSize_exhausted mctxConst "hello" bubbleSquare "Arial" 8 40
     (fun s _ _ hfit =>
       constMeasure_never_fits s ((fitsAt_bubbleSquare s).mp hfit))⟩

/-! ## C4 -/

/-- If size `fs - k` is the first fitting size on the way down from
`fs` (none of `fs`, `fs - 1`, …, `fs - (k-1)` fits) and it is reached
within the fuel and not below the minimum, the search loop returns it
with `fits = true` and the measured dimensions. -/
lemma fitLoop_first_fit (mctx : Option MeasureFn) (text fontFamily : String)
    (tbW tbH minFS targetFS : ℚ) :
    ∀ (k fuel : ℕ) (fs : ℚ), k < fuel → minFS ≤ fs - k →
      ((measureText mctx text fontFamily (fs - k) tbW).height ≤ tbH ∧
       (measureText mctx text fontFamily (fs - k) tbW).width
         ≤ (tbW : WithBot ℚ)) →
      (∀ j : ℕ, j < k →
        ¬ ((measureText mctx text fontFamily (fs - j) tbW).height ≤ tbH ∧
           (measureText mctx text fontFamily (fs - j) tbW).width
             ≤ (tbW : WithBot ℚ))) →
      fitLoop mctx text fontFamily tbW tbH minFS targetFS fuel fs =
        { fontSize := fs - k,
          textWidth := (measureText mctx text fontFamily (fs - k) tbW).width,
          textHeight := (measureText mctx text fontFamily (fs - k) tbW).height,
          fits := true,
          scaleFactor := (fs - k) / targetFS } := by
  intro k
  induction k with
  | zero =>
      intro fuel fs hfuel hmin hfit _
      cases fuel with
      | zero => exact absurd hfuel (Nat.not_lt_zero 0)
      | succ n =>
          rw [Nat.cast_zero, sub_zero] at hmin hfit ⊢
          rw [fitLoop, if_pos hmin, if_pos hfit]
  | succ k ih =>
      intro fuel fs hfuel hmin hfit hnofit
      cases fuel with
      | zero => exact absurd hfuel (Nat.not_lt_zero _)
      | succ n =>
          have hc : fs - ((k + 1 : ℕ) : ℚ) = (fs - 1) - (k : ℚ) := by
            push_cast
            ring
          rw [hc] at hmin hfit ⊢
          have hk0 : (0:ℚ) ≤ (k : ℚ) := Nat.cast_nonneg k
          have hge : minFS ≤ fs := by linarith
          rw [fitLoop, if_pos hge]
          have hnf0 := hnofit 0 (Nat.succ_pos k)
          rw [Nat.cast_zero, sub_zero] at hnf0
          rw [if_neg hnf0]
          have hm1 : minFS ≤ fs - 1 := by linarith
          rw [max_eq_right hm1]
          refine ih n (fs - 1) (Nat.lt_of_succ_lt_succ hfuel) hmin hfit ?_
          intro j hj
          have hnj := hnofit (j + 1) (Nat.succ_lt_succ hj)
          have hcj : fs - ((j + 1 : ℕ) : ℚ) = (fs - 1) - (j : ℚ) := by
            push_cast
            ring
          rwa [hcj] at hnj

/-- C4: `calculateOptimalFontSize` starts its search at
`min(bubble.fontSize, maxFontSize)`; at each step it measures the
plain-text word-wrapped block at the current size against the
closed-form safe zone (`getTextBounds`), returns the current size with
`fits = true` as soon as the measured height and width both fit, and
otherwise decrements the size by 1 and retries; the iteration budget
is 20 and the size never passes below the minimum.  Here the first fit
happens `k` decrements below the start. -/
theorem calculateOptimalFontSize_search (mctx : Option MeasureFn)
    (text : String) (b : Bubble) (fontFamily : String) (minFS maxFS : ℚ)
    (k : ℕ) (hk : k < 20)
    (hmin : minFS ≤ min b.fontSize maxFS - k)
    (hfit : fitsAt mctx text fontFamily b (min b.fontSize maxFS - k))
    (hnofit : ∀ j : ℕ, j < k →
      ¬ fitsAt mctx text fontFamily b (min b.fontSize maxFS - j)) :
    calculateOptimalFontSize mctx text b fontFamily minFS maxFS =
      { fontSize := min b.fontSize maxFS - k,
        textWidth := (measureText mctx text fontFamily
          (min b.fontSize maxFS - k) (getTextBounds b).width).width,
        textHeight := (measureText mctx text fontFamily
          (min b.fontSize maxFS - k) (getTextBounds b).width).height,
        fits := true,
        scaleFactor := (min b.fontSize maxFS - k) / b.fontSize } := by
  show fitLoop mctx text fontFamily (getTextBounds b).width
    (getTextBounds b).height minFS b.fontSize 20 (min b.fontSize maxFS) = _
  exact fitLoop_first_fit mctx text fontFamily (getTextBounds b).width
    (getTextBounds b).height minFS b.fontSize k 20 (min b.fontSize maxFS)
    hk hmin hfit hnofit

/-- A measurement oracle whose advance width is ten times the font
size, for every string. -/
def linMeasure : MeasureFn := fun fs _ _ => 10 * fs

/-- The context option wrapping `linMeasure`. -/
def mctxLin : Option MeasureFn := some linMeasure

/-- A 100×100 `Descriptive` bubble with font size 11 and text `"hi"`. -/
def bubbleEleven : Bubble :=
  { bubbleSquare with id := "bubble-8", text := "hi", fontSize := 11 }

/-- The closed-form safe zone of `bubbleEleven`. -/
lemma getTextBounds_bubbleEleven :
    getTextBounds bubbleEleven =
      { width := 90, height := 92.5, x := 5, y := 3.75 } := by
  norm_num [getTextBounds, bubbleEleven, bubbleSquare, SAFE_TEXT_ZONES]

/-- Measuring `"hi"` under `linMeasure`: a single unwrapped line of
width `10 × fontSize`. -/
lemma measureText_linMeasure (s : ℚ) :
    measureText mctxLin "hi" "Arial" s 90 =
      { width := ((10 * s : ℚ) : WithBot ℚ),
        height := s + getLineHeightOffset s, lines := 1 } := by
  have hwords : splitWs (stripTags "hi") = ["hi"] := rfl
  have hif : (if ("hi" : String) = "" then ([] : List String) else ["hi"])
      = ["hi"] := rfl
  norm_num [measureText, mctxLin, linMeasure, measureWrapStep, hwords, hif,
    jsMaxList_single]

/-- The fit condition at `bubbleEleven`, with its safe zone and the
measurement evaluated. -/
lemma fitsAt_bubbleEleven (s : ℚ) :
    fitsAt mctxLin "hi" "Arial" bubbleEleven s ↔
      (s + getLineHeightOffset s ≤ 92.5 ∧
        ((10 * s : ℚ) : WithBot ℚ) ≤ ((90:ℚ) : WithBot ℚ)) := by
  unfold fitsAt
  rw [getTextBounds_bubbleEleven]
  show ((measureText mctxLin "hi" "Arial" s 90).height ≤ (92.5:ℚ) ∧
    (measureText mctxLin "hi" "Arial" s 90).width ≤ ((90:ℚ) : WithBot ℚ)) ↔ _
  rw [measureText_linMeasure]

/-- Witness for C4: starting at `min(11, 40) = 11`, sizes 11 and 10
measure too wide (110 and 100 pixels against the 90-pixel safe zone)
and size 9 is the first fit, so the search returns font size 9 with
`fits = true` after two decrements. -/
theorem calculateOptimalFontSize_search_witness :
    calculateOptimalFontSize mctxLin "hi" bubbleEleven "Arial" 8 40 =
      { fontSize := 9, textWidth := ((90:ℚ) : WithBot ℚ), textHeight := 15.48,
        fits := true, scaleFactor := 9 / 11 } := by
  have hs : min bubbleEleven.fontSize (40:ℚ) - ((2:ℕ):ℚ) = 9 := by
    show min (11:ℚ) 40 - ((2:ℕ):ℚ) = 9
    rw [min_eq_left (by norm_num)]
    push_cast
    norm_num
  have h0 : min bubbleEleven.fontSize (40:ℚ) - ((0:ℕ):ℚ) = 11 := by
    show min (11:ℚ) 40 - ((0:ℕ):ℚ) = 11
    rw [min_eq_left (by norm_num)]
    push_cast
    norm_num
  have h1 : min bubbleEleven.fontSize (40:ℚ) - ((1:ℕ):ℚ) = 10 := by
    show min (11:ℚ) 40 - ((1:ℕ):ℚ) = 10
    rw [min_eq_left (by norm_num)]
    push_cast
    norm_num
  have happ := calculateOptimalFontSize_search mctxLin "hi" bubbleEleven
    "Arial" 8 40 2 (by norm_num)
    (by rw [hs]; norm_num)
    (by rw [hs]
        exact (fitsAt_bubbleEleven 9).mpr
          ⟨by norm_num [getLineHeightOffset, min_def],
           by rw [WithBot.coe_le_coe]; norm_num⟩)
    (by intro j hj
        interval_cases j
        · rw [h0]
          intro hfit
          have hw := ((fitsAt_bubbleEleven 11).mp hfit).2
          rw [WithBot.coe_le_coe] at hw
          norm_num at hw
        · rw [h1]
          intro hfit
          have hw := ((fitsAt_bubbleEleven 10).mp hfit).2
          rw [WithBot.coe_le_coe] at hw
          norm_num at hw)
  rw [hs] at happ
  rw [happ, getTextBounds_bubbleEleven]
  show ({ fontSize := 9,
          textWidth := (measureText mctxLin "hi" "Arial" 9 90).width,
          textHeight := (measureText mctxLin "hi" "Arial" 9 90).height,
          fits := true,
          scaleFactor := 9 / bubbleEleven.fontSize } : TextFitResult) = _
  rw [measureText_linMeasure]
  norm_num [getLineHeightOffset, min_def, bubbleEleven, bubbleSquare]

/-! ## C2 -/

/-- A `Thought` bubble of width 50 and height 200: the outline of a
Thought silhouette lies strictly below `y = 0`, so the sampled row at
`y = 0` finds no crossings. -/
def bubbleTall : Bubble :=
  { id := "bubble-9", type := .thought, text := "Pensee", x := 0, y := 0,
    width := 50, height := 200, fontFamily := .comic, fontSize := 12,
    textColor := "#000000", borderColor := "#000000", zIndex := 10,
    parts := [], shapeVariant := none }

/-- One scan step at target row `y = 0` over a path whose points all
have positive `y` neither flips the flag nor records a crossing. -/
lemma scanStep_preserves (P : PathHost) (hpos : ∀ d : ℚ, 0 < (P.pointAt d).2)
    (st : ScanState) (i : ℕ) (h1 : st.wasAbove = false) (h2 : st.acc = []) :
    (scanStep P 0 st i).wasAbove = false ∧ (scanStep P 0 st i).acc = [] := by
  unfold scanStep
  have hdec : decide ((P.pointAt (((i:ℚ) / 100) * P.pathLength)).2 < 0) = false :=
    decide_eq_false (not_lt.2 (hpos _).le)
  cases hlp : st.lastPoint with
  | none => simp [hdec, h2]
  | some lp => simp [hdec, h1, h2]

/-- Scanning any index list at target row `y = 0` over an
all-positive path collects no intersections. -/
lemma scan_foldl_empty (P : PathHost) (hpos : ∀ d : ℚ, 0 < (P.pointAt d).2) :
    ∀ (l : List ℕ) (st : ScanState), st.wasAbove = false → st.acc = [] →
      ((l.foldl (scanStep P 0) st).wasAbove = false ∧
       (l.foldl (scanStep P 0) st).acc = []) := by
  intro l
  induction l with
  | nil => intro st h1 h2; exact ⟨h1, h2⟩
  | cons i l ih =>
      intro st h1 h2
      rw [List.foldl_cons]
      exact ih _ (scanStep_preserves P hpos st i h1 h2).1
        (scanStep_preserves P hpos st i h1 h2).2

/-- `findIntersectionsAtY` at row `y = 0` over an all-positive path
returns no intersections. -/
lemma findIntersectionsAtY_empty (P : PathHost)
    (hpos : ∀ d : ℚ, 0 < (P.pointAt d).2) :
    findIntersectionsAtY P 0 = [] :=
  (scan_foldl_empty P hpos (List.range 101)
    { wasAbove := false, lastPoint := none, acc := [] } rfl rfl).2

/-- C2 (divergence witness for the code bug): for the 50×200 Thought
bubble, at row `y = 0` the sampling finds fewer than two outline
crossings (for any path host whose sampled points all have positive
`y`, as holds for the actual Thought outline), so the fallback branch
is taken and the per-row function returns `totalHeight * 0.5 = 100`,
which exceeds `bubble.width = 50`.  The claim (and the code's own
comment, "utiliser une valeur conservatrice") requires a value
`≤ width`; the code uses `totalHeight` where `width` was intended —
the sister fallback three lines up uses `width * 0.5`. -/
theorem calculateTextBounds_fallback_exceeds (P : PathHost)
    (hpos : ∀ d : ℚ, 0 < (P.pointAt d).2) :
    calculateTextBounds P bubbleTall 0 = 100 ∧
    bubbleTall.width < calculateTextBounds P bubbleTall 0 := by
  have hsamp : (samplePathAtYPositions P 200 20).getD 0 0 = 100 := by
    unfold samplePathAtYPositions
    rw [show List.range 20 = 0 :: (List.range 19).map Nat.succ from
      List.range_succ_eq_map 19]
    rw [List.map_cons, List.getD_cons_zero]
    norm_num [findIntersectionsAtY_empty P hpos]
  have hmain : calculateTextBounds P bubbleTall 0 = 100 := by
    unfold calculateTextBounds
    rw [if_neg (by decide :
      ¬(bubbleTall.type = BubbleType.descriptive ∨
        bubbleTall.type = BubbleType.textOnly))]
    show (if (⌊(0 / bubbleTall.height) *
        (((samplePathAtYPositions P bubbleTall.height 20).length : ℚ) - 1)⌋ : ℤ)
          < 0 ∨
        ((samplePathAtYPositions P bubbleTall.height 20).length : ℤ) ≤
          ⌊(0 / bubbleTall.height) *
            (((samplePathAtYPositions P bubbleTall.height 20).length : ℚ) - 1)⌋
      then bubbleTall.width * 0.5
      else (samplePathAtYPositions P bubbleTall.height 20).getD
        (⌊(0 / bubbleTall.height) *
          (((samplePathAtYPositions P bubbleTall.height 20).length : ℚ) - 1)⌋).toNat
        0) = 100
    have hlenN : (samplePathAtYPositions P bubbleTall.height 20).length
        = 20 := by
      unfold samplePathAtYPositions
      rw [List.length_map, List.length_range]
    have hfloor : (⌊(0 / bubbleTall.height) *
        (((samplePathAtYPositions P bubbleTall.height 20).length : ℚ) - 1)⌋ : ℤ)
        = 0 := by
      rw [zero_div, zero_mul]
      exact Int.floor_zero
    rw [hfloor]
    rw [if_neg]
    · show (samplePathAtYPositions P bubbleTall.height 20).getD 0 0 = 100
      exact hsamp
    · push_neg
      constructor
      · norm_num
      · rw [hlenN]
        norm_num
  exact ⟨hmain, by rw [hmain]; show (50:ℚ) < 100; norm_num⟩

/-- Witness for the C2 divergence theorem: a concrete all-positive
path host (constant point `(0, 1)`). -/
theorem calculateTextBounds_fallback_exceeds_witness :
    (∀ d : ℚ, 0 < (({ pathLength := 1, pointAt := fun _ => (0, 1) } :
        PathHost).pointAt d).2) ∧
    calculateTextBounds { pathLength := 1, pointAt := fun _ => (0, 1) }
      bubbleTall 0 = 100 :=
  ⟨fun _ => by norm_num,
   (calculateTextBounds_fallback_exceeds
     { pathLength := 1, pointAt := fun _ => (0, 1) }
     (fun _ => by norm_num)).1⟩

/-! ## C8 -/

/-- The sine-based PRNG always returns a value in `[0, 1)`: lower
bound. -/
lemma rngVal_nonneg (M : MathHost) (st : ℚ) : 0 ≤ rngVal M st := by
  show (0:ℚ) ≤ M.sin st * 10000 - ⌊M.sin st * 10000⌋
  have h := Int.floor_le (M.sin st * 10000)
  linarith

/-- The sine-based PRNG always returns a value in `[0, 1)`: upper
bound. -/
lemma rngVal_lt_one (M : MathHost) (st : ℚ) : rngVal M st < 1 := by
  show M.sin st * 10000 - ⌊M.sin st * 10000⌋ < 1
  have h := Int.lt_floor_add_one (M.sin st * 10000)
  linarith

/-- The lobe count drawn by a `Thought` bubble is between 7 and 12. -/
lemma thoughtLobes_bounds (M : MathHost) (seed : ℚ) :
    7 ≤ thoughtLobes M seed ∧ thoughtLobes M seed ≤ 12 := by
  unfold thoughtLobes
  constructor
  · exact Nat.le_add_left 7 _
  · have h1 : rngVal M seed * 6 < 6 := by
      nlinarith [rngVal_lt_one M seed, rngVal_nonneg M seed]
    have h2 : ⌊rngVal M seed * 6⌋ < 6 := by
      apply Int.floor_lt.2
      push_cast
      linarith
    omega

/-- Each lobe's bulge factor lies in `[1.3, 1.6]`. -/
lemma thoughtBulge_bounds (M : MathHost) (st : ℚ) :
    1.3 ≤ thoughtBulge M st ∧ thoughtBulge M st ≤ 1.6 := by
  unfold thoughtBulge
  constructor
  · nlinarith [rngVal_nonneg M st]
  · nlinarith [rngVal_lt_one M st, rngVal_nonneg M st]

/-- The lobe loop in closed form: iteration `i + j` consumes PRNG
state `st + j`. -/
lemma thoughtQuads_eq_map (M : MathHost) (cx cy rx ry : ℚ) (lobes : ℕ) :
    ∀ (count i : ℕ) (st : ℚ),
      thoughtQuads M cx cy rx ry lobes count i st =
        (List.range count).map fun j =>
          thoughtQuadCmd M cx cy rx ry lobes (i + j) (st + j) := by
  intro count
  induction count with
  | zero => intro i st; rfl
  | succ n ih =>
      intro i st
      rw [thoughtQuads, List.range_succ_eq_map, List.map_cons, List.map_map]
      congr 1
      · simp
      · rw [ih (i + 1) (st + 1)]
        apply List.map_congr_left
        intro j _
        show thoughtQuadCmd M cx cy rx ry lobes (i + 1 + j) (st + 1 + j) = _
        have hn : i + 1 + j = i + (j + 1) := by omega
        have hq : st + 1 + (j:ℚ) = st + ((j+1 : ℕ):ℚ) := by push_cast; ring
        rw [hn, hq]
        rfl

/-- The `Thought` branch of `generateBubblePaths`, named. -/
lemma generateBubblePaths_thought_body (M : MathHost) (b : Bubble)
    (hty : b.type = BubbleType.thought) :
    (generateBubblePaths M b).bodyPath =
      (if thoughtLobes M (bubbleSeed b.id b.shapeVariant) = 0 then []
       else
        [PathCmd.moveTo
          (b.width / 2 + b.width * 0.30 *
            M.cos (thoughtAngle M
              (thoughtLobes M (bubbleSeed b.id b.shapeVariant)) 0))
          (b.height / 2 + b.height * 0.30 *
            M.sin (thoughtAngle M
              (thoughtLobes M (bubbleSeed b.id b.shapeVariant)) 0))]) ++
      thoughtQuads M (b.width / 2) (b.height / 2) (b.width * 0.30)
        (b.height * 0.30) (thoughtLobes M (bubbleSeed b.id b.shapeVariant))
        (thoughtLobes M (bubbleSeed b.id b.shapeVariant)) 0
        (bubbleSeed b.id b.shapeVariant + 1) ++ [PathCmd.close] := by
  unfold generateBubblePaths generateBubblePathsCore
  rw [hty]
  rfl

/-- C8: the outline of every `Thought` bubble is a closed curve of
between 7 and 12 quadratic lobes (the count drawn from the seeded
PRNG) around the ellipse of radii `0.30 × width` and `0.30 × height`
centred in the bubble; each lobe ends on that ellipse at the next lobe
angle, and its control point sits at the mid angle pushed outward by a
per-lobe factor `f i ∈ [1.3, 1.6]`. -/
theorem thought_outline_structure (M : MathHost) (b : Bubble)
    (hty : b.type = BubbleType.thought) :
    ∃ (lobes : ℕ) (f : ℕ → ℚ),
      7 ≤ lobes ∧ lobes ≤ 12 ∧
      (∀ i : ℕ, 1.3 ≤ f i ∧ f i ≤ 1.6) ∧
      (generateBubblePaths M b).bodyPath =
        PathCmd.moveTo
          (b.width / 2 + b.width * 0.30 * M.cos (thoughtAngle M lobes 0))
          (b.height / 2 + b.height * 0.30 * M.sin (thoughtAngle M lobes 0)) ::
        ((List.range lobes).map fun i =>
          PathCmd.quad
            (b.width / 2 + b.width * 0.30 * f i *
              M.cos (thoughtMidAngle M lobes i))
            (b.height / 2 + b.height * 0.30 * f i *
              M.sin (thoughtMidAngle M lobes i))
            (b.width / 2 + b.width * 0.30 *
              M.cos (thoughtAngle M lobes (i + 1)))
            (b.height / 2 + b.height * 0.30 *
              M.sin (thoughtAngle M lobes (i + 1)))) ++
        [PathCmd.close] := by
  refine ⟨thoughtLobes M (bubbleSeed b.id b.shapeVariant),
    fun i => thoughtBulge M (bubbleSeed b.id b.shapeVariant + 1 + i),
    (thoughtLobes_bounds M _).1, (thoughtLobes_bounds M _).2,
    fun i => thoughtBulge_bounds M _, ?_⟩
  rw [generateBubblePaths_thought_body M b hty]
  rw [if_neg (by have := (thoughtLobes_bounds M
    (bubbleSeed b.id b.shapeVariant)).1; omega)]
  rw [thoughtQuads_eq_map]
  rw [List.singleton_append, List.cons_append]
  congr 2
  apply List.map_congr_left
  intro j _
  show thoughtQuadCmd M (b.width / 2) (b.height / 2) (b.width * 0.30)
    (b.height * 0.30) (thoughtLobes M (bubbleSeed b.id b.shapeVariant))
    (0 + j) (bubbleSeed b.id b.shapeVariant + 1 + j) = _
  rw [Nat.zero_add]
  rfl

/-- Witness for C8: the structure of the concrete `bubbleThought`
outline under the concrete host. -/
theorem thought_outline_structure_witness :
    bubbleThought.type = BubbleType.thought ∧
    ∃ (lobes : ℕ) (f : ℕ → ℚ),
      7 ≤ lobes ∧ lobes ≤ 12 ∧
      (∀ i : ℕ, 1.3 ≤ f i ∧ f i ≤ 1.6) ∧
      (generateBubblePaths trivialHost bubbleThought).bodyPath =
        PathCmd.moveTo
          (bubbleThought.width / 2 + bubbleThought.width * 0.30 *
            trivialHost.cos (thoughtAngle trivialHost lobes 0))
          (bubbleThought.height / 2 + bubbleThought.height * 0.30 *
            trivialHost.sin (thoughtAngle trivialHost lobes 0)) ::
        ((List.range lobes).map fun i =>
          PathCmd.quad
            (bubbleThought.width / 2 + bubbleThought.width * 0.30 * f i *
              trivialHost.cos (thoughtMidAngle trivialHost lobes i))
            (bubbleThought.height / 2 + bubbleThought.height * 0.30 * f i *
              trivialHost.sin (thoughtMidAngle trivialHost lobes i))
            (bubbleThought.width / 2 + bubbleThought.width * 0.30 *
              trivialHost.cos (thoughtAngle trivialHost lobes (i + 1)))
            (bubbleThought.height / 2 + bubbleThought.height * 0.30 *
              trivialHost.sin (thoughtAngle trivialHost lobes (i + 1)))) ++
        [PathCmd.close] :=
  ⟨rfl, thought_outline_structure trivialHost bubbleThought rfl⟩

end BubbleEditor
